import Mathlib

/-!
Verification of the service-health-checker engine (`checker.py`): the
sliding-window restart rate limiter, the probe and actuator variants, the
per-service sweep decision, the one-shot manual restart path, and service
construction from configuration.  Timestamps are modelled as natural
numbers of seconds; Python exceptions are modelled with `Except`.
-/

/-- Python exception classes relevant to the checker. -/
inductive PyExn where
  | calledProcessError
  | fileNotFoundError
  | otherError
deriving DecidableEq, Repr

/-- The `check` sub-dictionary of a service configuration entry
(`svc_conf['check']`): `type` is accessed with `[]` (required once the dict
exists); the HTTP parameters are read with `.get` and so are optional. -/
structure CheckConf where
  type : String
  url : Option String := none
  timeout_seconds : Option Nat := none
  expected_status : Option Nat := none
deriving DecidableEq, Repr

/-- One service entry of the configuration mapping.  Every field is
optional at the dictionary level; `name` and `check` are accessed with `[]`
(raising `KeyError` when absent), the rest with `.get` and a default. -/
structure SvcConf where
  name : Option String := none
  check : Option CheckConf := none
  restart_on_failure : Option Bool := none
  max_restarts_per_hour : Option Nat := none
deriving DecidableEq, Repr

/-- Runtime state of one service (`ServiceCheck.__init__`): the fields the
constructor derives from the configuration plus the mutable restart
ledger (`restart_history`, a list of timestamps in insertion order). -/
structure ServiceCheck where
  name : String
  config : SvcConf
  restart_on_failure : Bool
  max_restarts : Nat
  restart_history : List Nat
deriving DecidableEq, Repr

/-- `ServiceCheck.__init__`: reads `service_config['name']` (a `KeyError`
when absent), `restart_on_failure` defaulting to `False`,
`max_restarts_per_hour` defaulting to `0`, and starts an empty ledger. -/
def ServiceCheck.ofConfig (conf : SvcConf) : Except String ServiceCheck :=
  match conf.name with
  | none => .error "KeyError: name"
  | some n =>
      .ok { name := n
            config := conf
            restart_on_failure := conf.restart_on_failure.getD false
            max_restarts := conf.max_restarts_per_hour.getD 0
            restart_history := [] }

/-- `ServiceCheck.prune_restart_history`: keep only timestamps `t` with
`now - t < 3600` (Python subtraction on non-negative reals; for recorded
times not exceeding `now` the truncated `Nat` subtraction agrees, and for
times beyond `now` both sides retain the entry). -/
def ServiceCheck.prune_restart_history (now : Nat) (svc : ServiceCheck) :
    ServiceCheck :=
  { svc with
    restart_history := svc.restart_history.filter (fun t => now - t < 3600) }

/-- `ServiceCheck.can_restart`: prune (a mutation of `self`, returned here
as the second component), then permit iff the pruned length is strictly
below `max_restarts`. -/
def ServiceCheck.can_restart (now : Nat) (svc : ServiceCheck) :
    Bool × ServiceCheck :=
  let pruned := svc.prune_restart_history now
  (decide (pruned.restart_history.length < pruned.max_restarts), pruned)

/-- `ServiceCheck.record_restart`: append the current time unconditionally. -/
def ServiceCheck.record_restart (now : Nat) (svc : ServiceCheck) :
    ServiceCheck :=
  { svc with restart_history := svc.restart_history ++ [now] }

/-- A fresh runtime entry with limit `k`, auto-restart opted in and an
empty ledger: the state right after construction. -/
def freshService (k : Nat) : ServiceCheck :=
  { name := "svc"
    config := {}
    restart_on_failure := true
    max_restarts := k
    restart_history := [] }

/-- Apply `record_restart` once per timestamp of `ts`, in order. -/
def runRecords (svc : ServiceCheck) (ts : List Nat) : ServiceCheck :=
  ts.foldl (fun s t => s.record_restart t) svc

/-- Modelled from the spec's words, for comparison with the code: the
number of timestamps lying within the trailing 3600-second window before
`now`, i.e. in the half-open interval from `now - 3600` exclusive to `now`
inclusive. -/
def trailingWindowCount (now : Nat) (ts : List Nat) : Nat :=
  (ts.filter (fun t => decide (t ≤ now) && decide (now < t + 3600))).length

theorem runRecords_history (svc : ServiceCheck) (ts : List Nat) :
    (runRecords svc ts).restart_history = svc.restart_history ++ ts := by
  induction ts generalizing svc with
  | nil => simp [runRecords]
  | cons t ts ih =>
      simp [runRecords] at ih ⊢
      rw [ih]
      simp [ServiceCheck.record_restart]

theorem runRecords_max (svc : ServiceCheck) (ts : List Nat) :
    (runRecords svc ts).max_restarts = svc.max_restarts := by
  induction ts generalizing svc with
  | nil => rfl
  | cons t ts ih =>
      simp [runRecords] at ih ⊢
      rw [ih]
      simp [ServiceCheck.record_restart]

/-- C1: for every limit `k` and every sequence of `record_restart` calls
with non-decreasing timestamps not exceeding `now`, `can_restart` at `now`
answers true iff the number of recorded timestamps within the trailing
3600-second window before `now` is strictly below `k`; for `k = 0` it
answers false. -/
theorem can_restart_iff_window_count (k now : Nat) (ts : List Nat)
    (hmono : List.Chain' (· ≤ ·) ts) (hle : ∀ t ∈ ts, t ≤ now) :
    (((runRecords (freshService k) ts).can_restart now).fst = true ↔
      trailingWindowCount now ts < k)
    ∧ (k = 0 → ((runRecords (freshService k) ts).can_restart now).fst = false) := by
  have hfilter :
      ts.filter (fun t => decide (now - t < 3600))
        = ts.filter (fun t => decide (t ≤ now) && decide (now < t + 3600)) := by
    apply List.filter_congr
    intro t ht
    have h1 : t ≤ now := hle t ht
    have h2 : now - t < 3600 ↔ now < t + 3600 := by
      omega
    simp [h1, h2]
  constructor
  · simp only [ServiceCheck.can_restart, ServiceCheck.prune_restart_history,
      runRecords_history, runRecords_max, freshService, trailingWindowCount,
      List.nil_append]
    rw [hfilter]
    simp
  · intro hk
    simp only [ServiceCheck.can_restart, ServiceCheck.prune_restart_history,
      runRecords_max, freshService, hk]
    simp

/-- Witness for C1 at `k = 1`, records at 10 and 20, `now = 25`: both
records are in the window, so the count 2 is not below 1 and `can_restart`
answers false. -/
theorem can_restart_iff_window_count_witness :
    ((((runRecords (freshService 1) [10, 20]).can_restart 25).fst = true ↔
      trailingWindowCount 25 [10, 20] < 1)
    ∧ (1 = 0 → (((runRecords (freshService 1) [10, 20]).can_restart 25).fst = false))) :=
  can_restart_iff_window_count 1 25 [10, 20] (by simp) (by decide)

/-- The service state of claim C2: limit 2, two restarts recorded at
`t = 1000`. -/
def c2Service : ServiceCheck :=
  { name := "svc"
    config := {}
    restart_on_failure := true
    max_restarts := 2
    restart_history := [1000, 1000] }

/-- C2 counterexample: the claim asserts `can_restart` at the exact
boundary `t = 4600` is still false, but pruning retains only timestamps
with `now - t < 3600`, so both entries (exactly 3600 seconds old) are
evicted and the answer is true, not false. -/
theorem c2_boundary_counterexample :
    ¬ ((c2Service.can_restart 4600).fst = false) := by
  decide

/-- C2 amended: with limit 2 and two restarts recorded at `t = 1000`,
`can_restart` at `t = 1000` is false; at the exact boundary `t = 4600` it
is already true (retention requires `now - t < 3600`, strict, so entries
exactly 3600 seconds old are pruned); at `t = 4601` it is true. -/
theorem c2_boundary_amended :
    (c2Service.can_restart 1000).fst = false
    ∧ (c2Service.can_restart 4600).fst = true
    ∧ (c2Service.can_restart 4601).fst = true := by
  decide

/-- Outcome of one `subprocess.run` invocation without `check=True`: the
command completes with a return code, or the call itself raises (for
example `FileNotFoundError` when the supervisor command is unavailable). -/
inductive RunOutcome where
  | completed (returncode : Int)
  | raised (e : PyExn)
deriving DecidableEq, Repr

/-- `subprocess.run(..., check=True)`: a zero exit returns normally, a
non-zero exit raises `CalledProcessError`, and an exception of the call
itself propagates unchanged. -/
def subprocess_run_checked (b : RunOutcome) : Except PyExn Unit :=
  match b with
  | .completed rc => if rc == 0 then .ok () else .error .calledProcessError
  | .raised e => .error e

/-- `SystemdCheck.check`: run `systemctl is-active NAME`; healthy iff the
return code is zero; `except Exception` maps every raised exception to
`False` (unhealthy). -/
def SystemdCheck.check (b : RunOutcome) : Except PyExn Bool :=
  match b with
  | .completed rc => .ok (rc == 0)
  | .raised _ => .ok false

/-- `SystemdCheck.restart`: run `systemctl restart NAME` with
`check=True`; only `subprocess.CalledProcessError` is caught (yielding
`False`); any other exception propagates past the method. -/
def SystemdCheck.restart (b : RunOutcome) : Except PyExn Bool :=
  match subprocess_run_checked b with
  | .ok _ => .ok true
  | .error .calledProcessError => .ok false
  | .error e => .error e

/-- Outcome of one `urllib.request.urlopen` invocation: a response with a
status, an `urllib.error.HTTPError` carrying the error status code, or any
other raised exception (DNS, connect, timeout, bad URL). -/
inductive HttpOutcome where
  | response (status : Nat)
  | httpError (code : Nat)
  | raised (e : PyExn)
deriving DecidableEq, Repr

/-- `HttpCheck.check` on a service whose configuration carries the `check`
dictionary `cc`: healthy iff the observed status equals `expected_status`
(default 200); an `HTTPError` status is compared the same way; any other
exception is caught by `except Exception` and maps to unhealthy. -/
def HttpCheck.check (cc : CheckConf) (o : HttpOutcome) : Except PyExn Bool :=
  let expected_status := cc.expected_status.getD 200
  match o with
  | .response s => .ok (s == expected_status)
  | .httpError code => .ok (code == expected_status)
  | .raised _ => .ok false

/-- `HttpCheck.restart`: identical body to `SystemdCheck.restart` — it
restarts the same-named systemd unit, catching only `CalledProcessError`. -/
def HttpCheck.restart (b : RunOutcome) : Except PyExn Bool :=
  match subprocess_run_checked b with
  | .ok _ => .ok true
  | .error .calledProcessError => .ok false
  | .error e => .error e

/-- C4 counterexample: when the supervisor command is unavailable the
underlying call raises `FileNotFoundError`, which the actuator's `except`
clause (covering only `CalledProcessError`) does not catch, so the
exception propagates past the boundary instead of yielding `Failed`. -/
theorem restart_raises_on_unavailable :
    SystemdCheck.restart (.raised .fileNotFoundError)
      = .error .fileNotFoundError := by
  rfl

/-- C4 amended: for both actuator variants, a supervisor-reported failure
(non-zero exit, raised as `CalledProcessError`) yields the `Failed`
outcome and a zero exit yields `Succeeded`; but an exception from invoking
the command itself — such as `FileNotFoundError` when the supervisor
command is unavailable — is not caught and propagates past the boundary. -/
theorem restart_outcome_spec (rc : Int) :
    (SystemdCheck.restart (.completed rc) = .ok (rc == 0)
      ∧ HttpCheck.restart (.completed rc) = .ok (rc == 0))
    ∧ (SystemdCheck.restart (.raised .calledProcessError) = .ok false
      ∧ HttpCheck.restart (.raised .calledProcessError) = .ok false)
    ∧ (SystemdCheck.restart (.raised .fileNotFoundError)
        = .error .fileNotFoundError
      ∧ HttpCheck.restart (.raised .fileNotFoundError)
        = .error .fileNotFoundError)
    ∧ (SystemdCheck.restart (.raised .otherError) = .error .otherError
      ∧ HttpCheck.restart (.raised .otherError) = .error .otherError) := by
  refine ⟨⟨?_, ?_⟩, ⟨rfl, rfl⟩, ⟨rfl, rfl⟩, ⟨rfl, rfl⟩⟩ <;>
    · simp only [SystemdCheck.restart, HttpCheck.restart,
        subprocess_run_checked]
      by_cases h : rc == 0 <;> simp [h]

/-- C5: neither probe variant ever raises to its caller — every outcome of
the underlying mechanism (supervisor command result or failure, HTTP
response, HTTP error status, transport fault) is mapped to a health value. -/
theorem check_never_raises :
    (∀ b : RunOutcome, ∃ r : Bool, SystemdCheck.check b = .ok r)
    ∧ (∀ (cc : CheckConf) (o : HttpOutcome),
        ∃ r : Bool, HttpCheck.check cc o = .ok r) := by
  constructor
  · intro b
    cases b with
    | completed rc => exact ⟨rc == 0, rfl⟩
    | raised e => exact ⟨false, rfl⟩
  · intro cc o
    cases o with
    | response s => exact ⟨s == cc.expected_status.getD 200, rfl⟩
    | httpError code => exact ⟨code == cc.expected_status.getD 200, rfl⟩
    | raised e => exact ⟨false, rfl⟩

/-- C6: the HTTP probe is healthy iff the observed response status equals
`expected_status` (defaulting to 200 when the configuration omits it),
also when the status arrives as an `HTTPError`; every transport-level
failure is unhealthy. -/
theorem http_check_spec (cc : CheckConf) (s : Nat) (e : PyExn) :
    HttpCheck.check cc (.response s) = .ok (s == cc.expected_status.getD 200)
    ∧ HttpCheck.check cc (.httpError s) = .ok (s == cc.expected_status.getD 200)
    ∧ HttpCheck.check cc (.raised e) = .ok false
    ∧ (cc.expected_status = none →
        HttpCheck.check cc (.response s) = .ok (s == 200)) := by
  refine ⟨rfl, rfl, rfl, ?_⟩
  intro h
  simp [HttpCheck.check, h]

/-- Result of processing one service in the sweep loop (`main`, the body of
`for svc in services`): the updated service state, whether the actuator's
`restart` was invoked, whether `record_restart` was called, and whether the
rate budget denied the restart. -/
structure SweepResult where
  svc : ServiceCheck
  actuatorInvoked : Bool
  recorded : Bool
  budgetDenied : Bool
deriving DecidableEq, Repr

/-- One iteration of the sweep body for one service.  `is_healthy` is the
probe's answer and `restartResult` the outcome the actuator would report;
both are inputs because they come from the outside world.  Mirrors the
source: healthy → log only; unhealthy and not opted in → log only;
otherwise consult `can_restart` (whose pruning side effect persists); if
permitted and dry-run, log intent only; if permitted and live, invoke the
actuator and then `record_restart` regardless of `restartResult`; if
denied, log the exhausted budget. -/
def sweepOne (dry_run : Bool) (now : Nat) (is_healthy restartResult : Bool)
    (svc : ServiceCheck) : SweepResult :=
  if is_healthy then
    { svc := svc, actuatorInvoked := false, recorded := false,
      budgetDenied := false }
  else if svc.restart_on_failure then
    let pr := svc.can_restart now
    if pr.fst then
      if dry_run then
        { svc := pr.snd, actuatorInvoked := false, recorded := false,
          budgetDenied := false }
      else
        { svc := pr.snd.record_restart now, actuatorInvoked := true,
          recorded := true, budgetDenied := false }
    else
      { svc := pr.snd, actuatorInvoked := false, recorded := false,
        budgetDenied := true }
  else
    { svc := svc, actuatorInvoked := false, recorded := false,
      budgetDenied := false }

/-- Result of the `--restart NAME` path: the (unchanged) service list,
whether the actuator was invoked, and whether a not-found error was
reported. -/
structure ManualRestartResult where
  services : List ServiceCheck
  actuatorInvoked : Bool
  notFound : Bool
deriving DecidableEq, Repr

/-- The `--restart NAME` path of `main`: find the first configured service
with the requested name; if found, invoke its actuator (or only log the
intent under dry-run) without consulting the probe, the rate limiter or
the ledger; if absent, log a not-found error.  `record_restart` is never
called on this path. -/
def manualRestart (dry_run : Bool) (target : String)
    (services : List ServiceCheck) : ManualRestartResult :=
  match services.find? (fun s => s.name == target) with
  | some _ =>
      if dry_run then
        { services := services, actuatorInvoked := false, notFound := false }
      else
        { services := services, actuatorInvoked := true, notFound := false }
  | none =>
      { services := services, actuatorInvoked := false, notFound := true }

/-- C3: on the live (non-dry-run) sweep path, whenever the actuator was
invoked for a service, `record_restart` ran too and the current timestamp
was appended to the (pruned) ledger — for either value of the actuator's
reported outcome, so a failed restart also consumes one slot of the rate
budget. -/
theorem sweep_records_after_actuation (now : Nat) (svc : ServiceCheck)
    (is_healthy restartResult : Bool)
    (h : (sweepOne false now is_healthy restartResult svc).actuatorInvoked
          = true) :
    (sweepOne false now is_healthy restartResult svc).recorded = true
    ∧ (sweepOne false now is_healthy restartResult svc).svc.restart_history
        = (svc.prune_restart_history now).restart_history ++ [now] := by
  by_cases hh : is_healthy
  · simp [sweepOne, hh] at h
  · by_cases hr : svc.restart_on_failure
    · by_cases hc : (svc.prune_restart_history now).restart_history.length
          < (svc.prune_restart_history now).max_restarts
      · simp [sweepOne, hh, hr, hc, ServiceCheck.record_restart,
          ServiceCheck.can_restart]
      · simp [sweepOne, hh, hr, hc, ServiceCheck.can_restart] at h
    · simp [sweepOne, hh, hr] at h

/-- Witness for C3: a failed restart (`restartResult = false`) of an
unhealthy, opted-in service with budget 1 still appends `now = 100` to the
ledger. -/
theorem sweep_records_after_actuation_witness :
    (sweepOne false 100 false false (freshService 1)).actuatorInvoked = true
    ∧ ((sweepOne false 100 false false (freshService 1)).recorded = true
      ∧ (sweepOne false 100 false false (freshService 1)).svc.restart_history
          = ((freshService 1).prune_restart_history 100).restart_history
              ++ [100]) :=
  ⟨by decide, sweep_records_after_actuation 100 (freshService 1) false false
    (by decide)⟩

/-- C7: under dry-run, the sweep body never invokes the actuator and never
calls `record_restart`, and the set of in-window attempts of the ledger is
unchanged (pruning may drop already-stale entries, which lie outside the
window); the manual `--restart` path under dry-run likewise invokes no
actuator and leaves every service untouched. -/
theorem dry_run_frame (now : Nat) (svc : ServiceCheck)
    (is_healthy restartResult : Bool) :
    (sweepOne true now is_healthy restartResult svc).actuatorInvoked = false
    ∧ (sweepOne true now is_healthy restartResult svc).recorded = false
    ∧ ((sweepOne true now is_healthy restartResult svc).svc.restart_history.filter
          (fun t => decide (now - t < 3600))
        = svc.restart_history.filter (fun t => decide (now - t < 3600)))
    ∧ (∀ (target : String) (services : List ServiceCheck),
        (manualRestart true target services).actuatorInvoked = false
        ∧ (manualRestart true target services).services = services) := by
  have hfilter : ∀ l : List Nat,
      (l.filter (fun t => decide (now - t < 3600))).filter
          (fun t => decide (now - t < 3600))
        = l.filter (fun t => decide (now - t < 3600)) := by
    intro l
    induction l with
    | nil => rfl
    | cons a l ih =>
        by_cases ha : now - a < 3600 <;> simp [List.filter, ha, ih]
  refine ⟨?_, ?_, ?_, ?_⟩
  · by_cases hh : is_healthy
    · simp [sweepOne, hh]
    · by_cases hr : svc.restart_on_failure
      · by_cases hc : (svc.prune_restart_history now).restart_history.length
            < (svc.prune_restart_history now).max_restarts <;>
          simp [sweepOne, hh, hr, hc, ServiceCheck.can_restart]
      · simp [sweepOne, hh, hr]
  · by_cases hh : is_healthy
    · simp [sweepOne, hh]
    · by_cases hr : svc.restart_on_failure
      · by_cases hc : (svc.prune_restart_history now).restart_history.length
            < (svc.prune_restart_history now).max_restarts <;>
          simp [sweepOne, hh, hr, hc, ServiceCheck.can_restart]
      · simp [sweepOne, hh, hr]
  · by_cases hh : is_healthy
    · simp [sweepOne, hh]
    · by_cases hr : svc.restart_on_failure
      · simp only [sweepOne, hh, hr, ServiceCheck.can_restart,
          ServiceCheck.prune_restart_history, Bool.false_eq_true,
          if_false, if_true]
        split <;> simp [hfilter]
      · simp [sweepOne, hh, hr]
  · intro target services
    cases hfind : services.find? (fun s => s.name == target) <;>
      simp [manualRestart, hfind]

/-- C8: the `--restart NAME` path with a name absent from the configured
services performs no actuation and reports not-found; with a present name
it invokes the actuator unconditionally — no probe and no rate-limit
consultation occurs, so it fires even when the service's rate budget is
exhausted — and the ledgers stay untouched. -/
theorem manual_restart_spec (target : String)
    (services : List ServiceCheck) :
    (services.find? (fun s => s.name == target) = none →
      (manualRestart false target services).actuatorInvoked = false
      ∧ (manualRestart false target services).notFound = true)
    ∧ (∀ svc, services.find? (fun s => s.name == target) = some svc →
      (manualRestart false target services).actuatorInvoked = true
      ∧ (manualRestart false target services).notFound = false
      ∧ (manualRestart false target services).services = services) := by
  constructor
  · intro hfind
    simp [manualRestart, hfind]
  · intro svc hfind
    simp [manualRestart, hfind]

/-- Witness for C8: the name "ghost" is absent from a one-service list, so
nothing is actuated and not-found is reported; the name "svc" is present
on a service whose budget is exhausted (limit 0), and the actuator fires
anyway. -/
theorem manual_restart_spec_witness :
    ((manualRestart false "ghost" [freshService 2]).actuatorInvoked = false
      ∧ (manualRestart false "ghost" [freshService 2]).notFound = true)
    ∧ ((manualRestart false "svc" [freshService 0]).actuatorInvoked = true
      ∧ (manualRestart false "svc" [freshService 0]).notFound = false
      ∧ (manualRestart false "svc" [freshService 0]).services
          = [freshService 0]) :=
  ⟨(manual_restart_spec "ghost" [freshService 2]).1 (by decide),
   (manual_restart_spec "svc" [freshService 0]).2 (freshService 0)
     (by decide)⟩

/-- The two checker classes the resolver knows. -/
inductive CheckerClass where
  | systemdCheck
  | httpCheck
deriving DecidableEq, Repr

/-- `get_checker_class`: map the `check.type` string to a checker class, or
raise `ValueError` for anything else. -/
def get_checker_class (check_type : String) : Except String CheckerClass :=
  if check_type = "systemd" then .ok .systemdCheck
  else if check_type = "http" then .ok .httpCheck
  else .error ("Unknown check type: " ++ check_type)

/-- A constructed service object: its checker class and its runtime state. -/
structure Service where
  cls : CheckerClass
  state : ServiceCheck
deriving DecidableEq, Repr

/-- One iteration of the service-construction loop of `main`: read
`svc_conf['check']['type']`, resolve the class, instantiate it; any raised
exception (missing key, `ValueError` from the resolver) is the error case,
which the surrounding `except` turns into a logged skip. -/
def initService (conf : SvcConf) : Except String Service :=
  match conf.check with
  | none => .error "KeyError: check"
  | some cc =>
      match get_checker_class cc.type with
      | .error e => .error e
      | .ok cls =>
          match ServiceCheck.ofConfig conf with
          | .error e => .error e
          | .ok st => .ok { cls := cls, state := st }

/-- The accumulator step of the construction loop: append the constructed
service, or skip the entry when construction raised. -/
def buildStep (acc : List Service) (conf : SvcConf) : List Service :=
  match initService conf with
  | .ok s => acc ++ [s]
  | .error _ => acc

/-- `main`'s construction of the service list from `config['services']`. -/
def buildServices (confs : List SvcConf) : List Service :=
  confs.foldl buildStep []

/-- C9: an entry whose check type is neither "systemd" nor "http" makes the
resolver report an error, no service object is constructed for that entry,
and the list built from the configuration is exactly the one built with
that entry removed — every other entry still loads. -/
theorem unknown_check_type_skipped (cc : CheckConf) (conf : SvcConf)
    (xs ys : List SvcConf)
    (h1 : cc.type ≠ "systemd") (h2 : cc.type ≠ "http")
    (hc : conf.check = some cc) :
    get_checker_class cc.type = .error ("Unknown check type: " ++ cc.type)
    ∧ initService conf = .error ("Unknown check type: " ++ cc.type)
    ∧ buildServices (xs ++ conf :: ys) = buildServices (xs ++ ys) := by
  have hg : get_checker_class cc.type
      = .error ("Unknown check type: " ++ cc.type) := by
    simp [get_checker_class, h1, h2]
  have hi : initService conf
      = .error ("Unknown check type: " ++ cc.type) := by
    simp [initService, hc, hg]
  refine ⟨hg, hi, ?_⟩
  simp [buildServices, List.foldl_append, List.foldl_cons, buildStep, hi]

/-- A well-formed systemd entry, an entry with the unsupported check type
"tcp", and a well-formed http entry, for the C9 witness. -/
def c9GoodA : SvcConf :=
  { name := some "a", check := some { type := "systemd" },
    restart_on_failure := some true, max_restarts_per_hour := some 3 }

def c9Bad : SvcConf :=
  { name := some "b", check := some { type := "tcp" } }

def c9GoodB : SvcConf :=
  { name := some "w",
    check := some { type := "http", url := some "http://localhost:8080" } }

/-- Witness for C9: with the "tcp" entry between two valid entries, the
resolver errors on "tcp" and the built list equals the one built from the
two valid entries alone. -/
theorem unknown_check_type_skipped_witness :
    get_checker_class "tcp" = .error ("Unknown check type: " ++ "tcp")
    ∧ initService c9Bad = .error ("Unknown check type: " ++ "tcp")
    ∧ buildServices ([c9GoodA] ++ c9Bad :: [c9GoodB])
        = buildServices ([c9GoodA] ++ [c9GoodB]) :=
  unknown_check_type_skipped { type := "tcp" } c9Bad [c9GoodA] [c9GoodB]
    (by decide) (by decide) rfl

/-- C10: a configuration entry that omits `max_restarts_per_hour` yields a
service with limit 0; for that service `can_restart` is false for every
ledger state, and the sweep never invokes the actuator for it — whatever
the probe answer, the dry-run flag and the opt-in flag say. -/
theorem omitted_limit_defaults_to_zero (conf : SvcConf) (svc : ServiceCheck)
    (hist : List Nat) (now : Nat) (is_healthy restartResult dry_run : Bool)
    (hmax : conf.max_restarts_per_hour = none)
    (hsvc : ServiceCheck.ofConfig conf = .ok svc) :
    svc.max_restarts = 0
    ∧ (ServiceCheck.can_restart now
        { svc with restart_history := hist }).fst = false
    ∧ (sweepOne dry_run now is_healthy restartResult
        { svc with restart_history := hist }).actuatorInvoked = false := by
  have hk : svc.max_restarts = 0 := by
    cases hn : conf.name with
    | none => simp [ServiceCheck.ofConfig, hn] at hsvc
    | some n =>
        simp [ServiceCheck.ofConfig, hn] at hsvc
        rw [← hsvc]
        simp [hmax]
  refine ⟨hk, ?_, ?_⟩
  · simp [ServiceCheck.can_restart, ServiceCheck.prune_restart_history, hk]
  · by_cases hh : is_healthy
    · simp [sweepOne, hh]
    · by_cases hr : svc.restart_on_failure
      · simp [sweepOne, hh, hr, ServiceCheck.can_restart,
          ServiceCheck.prune_restart_history, hk]
      · simp [sweepOne, hh, hr]

/-- The C10 witness configuration: opted in to restart-on-failure but with
`max_restarts_per_hour` omitted. -/
def c10Conf : SvcConf :=
  { name := some "a", check := some { type := "systemd" },
    restart_on_failure := some true }

/-- The service state `ServiceCheck.ofConfig` constructs from `c10Conf`. -/
def c10Svc : ServiceCheck :=
  { name := "a", config := c10Conf, restart_on_failure := true,
    max_restarts := 0, restart_history := [] }

/-- Witness for C10: the constructed service has limit 0, denies a restart
on the ledger [5, 6] at time 10, and the live sweep of the unhealthy,
opted-in service does not actuate. -/
theorem omitted_limit_defaults_to_zero_witness :
    c10Svc.max_restarts = 0
    ∧ (ServiceCheck.can_restart 10
        { c10Svc with restart_history := [5, 6] }).fst = false
    ∧ (sweepOne false 10 false false
        { c10Svc with restart_history := [5, 6] }).actuatorInvoked = false :=
  omitted_limit_defaults_to_zero c10Conf c10Svc [5, 6] 10 false false false
    rfl rfl
